import Mathlib

/-!
Verification of the admin dashboard theme controller
(`src/core/static/admin/dashboard.js`).

The script manages a two-variant theme preference (`dark` / `light`):
it keeps three representations convergent — the value persisted in
`localStorage` under the key `taw_dash_theme`, the `data-theme` tag on
`document.body`, and the inner content of the toggle button — and
rewrites the stylesheet link's `href`.

The DOM and storage are modelled as an explicit state record `St`.
Element presence is encoded with `Option` (a `none` link or button means
the element is absent from the page, matching the `if(link)` / `if(btn)`
guards in the source).  `localStorage` failures are modelled with two
flags: `readFails` (the `getItem` call throws, caught in `init`) and
`writeFails` (the `setItem` call throws, caught in `apply`); the
`try{...}catch(e){}` wrappers in the source make both total, which is
reflected here by `apply` and `init` being total functions that leave
`storage` unchanged when the write fails.

JavaScript truthiness details are embedded faithfully: `if(saved)` in
`init` and `dataset.theme || "dark"` in the click handler treat the
empty string like an absent value, captured by `orDefault`.
-/

namespace Dashboard

/-- The fixed localStorage key, `THEME_KEY` in the source. -/
def THEME_KEY : String := "taw_dash_theme"

/-- Stylesheet URL of the dark theme (the `dark` entry of `THEMES`). -/
def darkURL : String :=
  "https://cdn.jsdelivr.net/npm/bootswatch@5.3.3/dist/darkly/bootstrap.min.css"

/-- Stylesheet URL of the light theme (the `light` entry of `THEMES`). -/
def lightURL : String :=
  "https://cdn.jsdelivr.net/npm/bootswatch@5.3.3/dist/lux/bootstrap.min.css"

/-- The static two-entry theme table `THEMES`, as the lookup used in
`apply` (it is only ever indexed by the normalized value `t`, which is
`"light"` or `"dark"`). -/
def THEMES (t : String) : String :=
  if t = "light" then lightURL else darkURL

/-- The button content written when `t === "light"` is applied: a moon
icon plus the label `Dark`, i.e. the control describes the action
"switch to dark". -/
def moonDarkLabel : String :=
  "<i class=\"bi bi-moon-stars\"></i><span class=\"ms-1\">Dark</span>"

/-- The button content written when a non-light theme is applied: a sun
icon plus the label `Light`, i.e. the control describes the action
"switch to light". -/
def sunLightLabel : String :=
  "<i class=\"bi bi-sun\"></i><span class=\"ms-1\">Light</span>"

/-- The `btn.innerHTML` value chosen in `apply` for normalized theme `t`:
`t === "light" ? moonDarkLabel : sunLightLabel`. -/
def labelFor (t : String) : String :=
  if t = "light" then moonDarkLabel else sunLightLabel

/-- The page / storage state visible to the script.

* `link`    — `some href` when the stylesheet `<link id="bsTheme">`
  element exists with that `href`, `none` when it is absent;
* `btn`     — `some html` when the toggle `#themeToggle` element exists
  with that `innerHTML`, `none` when it is absent;
* `bodyTheme` — `document.body.dataset.theme` (`none` when unset);
* `storage` — the `localStorage` entry under `THEME_KEY`
  (`none` when absent);
* `writeFails` — `localStorage.setItem` throws (caught in `apply`);
* `readFails`  — `localStorage.getItem` throws (caught in `init`). -/
structure St where
  link : Option String
  btn : Option String
  bodyTheme : Option String
  storage : Option String
  writeFails : Bool
  readFails : Bool
  deriving Repr, DecidableEq

/-- The normalization on entry to `apply`:
`const t = theme === "light" ? "light" : "dark"`. -/
def normalize (theme : String) : String :=
  if theme = "light" then "light" else "dark"

/-- The `apply(theme)` function of the source.  In order:
rewrites `link.href` when the link element exists, writes
`document.body.dataset.theme = t` unconditionally, attempts
`localStorage.setItem(THEME_KEY, t)` inside `try{}catch(e){}` (so a
failing write leaves `storage` unchanged and the remaining effects still
happen), and overwrites `btn.innerHTML` when the button exists. -/
def apply (theme : String) (st : St) : St :=
  let t := normalize theme
  { st with
    link := st.link.map (fun _ => THEMES t)
    bodyTheme := some t
    storage := if st.writeFails then st.storage else some t
    btn := st.btn.map (fun _ => labelFor t) }

/-- JavaScript-truthiness defaulting: `none` and the empty string both
fall back to the default, matching `if(saved)` and `x || "dark"`. -/
def orDefault (o : Option String) (d : String) : String :=
  match o with
  | none => d
  | some s => if s = "" then d else s

/-- The `init()` function of the source, up to and including the call
`apply(t)`: `t` starts as `"dark"`, is replaced by the stored value when
the guarded read succeeds and yields a truthy string, and is then
applied.  (The listener registration is modelled by `click` below.) -/
def init (st : St) : St :=
  let t := if st.readFails then "dark" else orDefault st.storage "dark"
  apply t st

/-- One invocation of the click listener registered in `init`:
`const cur = document.body.dataset.theme || "dark";
 apply(cur === "dark" ? "light" : "dark");`. -/
def click (st : St) : St :=
  let cur := orDefault st.bodyTheme "dark"
  apply (if cur = "dark" then "light" else "dark") st

/-- `n` successive invocations of the click listener. -/
def clicks : Nat → St → St
  | 0, st => st
  | n + 1, st => clicks n (click st)

/-- One page lifetime: `init()` at load, then `n` user clicks. -/
def run (st : St) (n : Nat) : St := clicks n (init st)

/-- Decoding of the toggle control's content: the control always names
the theme one can switch *to*, so its content determines the currently
applied preference — `sunLightLabel` (action "switch to light") implies
`dark` is current, `moonDarkLabel` (action "switch to dark") implies
`light` is current.  Any other content implies nothing. -/
def impliedApplied (html : String) : Option String :=
  if html = sunLightLabel then some "dark"
  else if html = moonDarkLabel then some "light"
  else none

/-! ### Basic facts about normalization and the label decoding -/

lemma dark_ne_light : ("dark" : String) ≠ "light" := by decide

lemma normalize_light : normalize "light" = "light" := by decide

lemma normalize_dark : normalize "dark" = "dark" := by decide

lemma normalize_eq_light_iff (p : String) : normalize p = "light" ↔ p = "light" := by
  unfold normalize
  by_cases h : p = "light"
  · rw [if_pos h]; exact ⟨fun _ => h, fun _ => rfl⟩
  · rw [if_neg h]; exact ⟨fun hc => absurd hc dark_ne_light, fun hc => absurd hc h⟩

lemma normalize_cases (p : String) : normalize p = "dark" ∨ normalize p = "light" := by
  unfold normalize
  by_cases h : p = "light"
  · rw [if_pos h]; exact Or.inr rfl
  · rw [if_neg h]; exact Or.inl rfl

lemma normalize_idem (p : String) : normalize (normalize p) = normalize p := by
  rcases normalize_cases p with h | h <;> rw [h] <;> decide

lemma impliedApplied_labelFor {t : String} (h : t = "dark" ∨ t = "light") :
    impliedApplied (labelFor t) = some t := by
  rcases h with h | h <;> subst h <;> decide

/-! ### Field-level description of `apply` -/

lemma apply_link (p : String) (st : St) :
    (apply p st).link = st.link.map (fun _ => THEMES (normalize p)) := rfl

lemma apply_bodyTheme (p : String) (st : St) :
    (apply p st).bodyTheme = some (normalize p) := rfl

lemma apply_storage (p : String) (st : St) :
    (apply p st).storage = if st.writeFails then st.storage else some (normalize p) := rfl

lemma apply_btn (p : String) (st : St) :
    (apply p st).btn = st.btn.map (fun _ => labelFor (normalize p)) := rfl

lemma apply_writeFails (p : String) (st : St) :
    (apply p st).writeFails = st.writeFails := rfl

lemma apply_btn_isSome (p : String) (st : St) :
    ((apply p st).btn).isSome = (st.btn).isSome := by
  rw [apply_btn]; cases st.btn <;> rfl

/-! ### The convergence invariant (spec section 3) -/

/-- The three representations of the preference agree on a single
well-formed value, the toggle is present and storage writes succeed. -/
def Agree (s : St) : Prop :=
  s.writeFails = false ∧ (s.btn).isSome ∧
    ∃ t, (t = "dark" ∨ t = "light") ∧ s.storage = some t ∧
      s.bodyTheme = some t ∧ (s.btn).bind impliedApplied = some t

lemma apply_Agree (p : String) (st : St) (hw : st.writeFails = false)
    (hb : (st.btn).isSome) : Agree (apply p st) := by
  obtain ⟨b, hb'⟩ := Option.isSome_iff_exists.mp hb
  refine ⟨(apply_writeFails p st).trans hw, (apply_btn_isSome p st).trans hb, normalize p,
    normalize_cases p, ?_, apply_bodyTheme p st, ?_⟩
  · rw [apply_storage, hw]; rfl
  · rw [apply_btn, hb']
    exact impliedApplied_labelFor (normalize_cases p)

lemma click_Agree {s : St} (h : Agree s) : Agree (click s) :=
  apply_Agree _ s h.1 h.2.1

lemma clicks_Agree (n : Nat) : ∀ s : St, Agree s → Agree (clicks n s) := by
  induction n with
  | zero => exact fun s h => h
  | succ n ih => exact fun s h => ih (click s) (click_Agree h)

/-! ### The click handler -/

lemma click_bodyTheme (s : St) :
    (click s).bodyTheme =
      some (normalize (if orDefault s.bodyTheme "dark" = "dark" then "light" else "dark")) :=
  rfl

/-- A click never leaves the root state tag unchanged: the handler reads
the tag (empty or missing collapsing to `dark`) and applies the flip. -/
lemma click_bodyTheme_ne (s : St) : (click s).bodyTheme ≠ s.bodyTheme := by
  cases hB : s.bodyTheme with
  | none => rw [click_bodyTheme, hB]; exact Option.some_ne_none _
  | some v =>
    rw [click_bodyTheme, hB]
    by_cases hv : v = ""
    · subst hv; decide
    by_cases hdk : v = "dark"
    · subst hdk; decide
    · have hcur : orDefault (some v) "dark" = v := by simp [orDefault, hv]
      rw [hcur, if_neg hdk, normalize_dark]
      intro hcontra
      exact hdk (Option.some.inj hcontra).symm

/-! ### Storage-independence of the rendered state (spec section 8) -/

/-- The rendered part of the state: link `href`, root state tag, and
button content — everything except the persisted value and the failure
flags. -/
def proj (s : St) : Option String × Option String × Option String :=
  (s.link, s.bodyTheme, s.btn)

lemma proj_apply (p : String) {s1 s2 : St} (h : proj s1 = proj s2) :
    proj (apply p s1) = proj (apply p s2) := by
  have hl : s1.link = s2.link := congrArg Prod.fst h
  have ht : s1.btn = s2.btn := congrArg (fun x => x.2.2) h
  show (_, some (normalize p), _) = (_, some (normalize p), _)
  rw [show (apply p s1).link = s1.link.map (fun _ => THEMES (normalize p)) from rfl,
    show (apply p s2).link = s2.link.map (fun _ => THEMES (normalize p)) from rfl,
    show (apply p s1).btn = s1.btn.map (fun _ => labelFor (normalize p)) from rfl,
    show (apply p s2).btn = s2.btn.map (fun _ => labelFor (normalize p)) from rfl, hl, ht]

lemma proj_click {s1 s2 : St} (h : proj s1 = proj s2) :
    proj (click s1) = proj (click s2) := by
  have hb : s1.bodyTheme = s2.bodyTheme := congrArg (fun x => x.2.1) h
  unfold click
  rw [hb]
  exact proj_apply _ h

lemma proj_clicks (n : Nat) :
    ∀ {s1 s2 : St}, proj s1 = proj s2 → proj (clicks n s1) = proj (clicks n s2) := by
  induction n with
  | zero => exact fun h => h
  | succ n ih => exact fun h => ih (proj_click h)

/-! ### Evaluation lemmas for the two concrete variants -/

lemma labelFor_light : labelFor "light" = moonDarkLabel := by decide

lemma labelFor_dark : labelFor "dark" = sunLightLabel := by decide

lemma flip_of_dark :
    (if orDefault (some "dark") "dark" = "dark" then "light" else "dark") = "light" := by decide

lemma flip_of_light :
    (if orDefault (some "light") "dark" = "dark" then "light" else "dark") = "dark" := by decide

lemma click_dark {s : St} (h : s.bodyTheme = some "dark") : click s = apply "light" s := by
  simp only [click, h, flip_of_dark]

lemma click_light {s : St} (h : s.bodyTheme = some "light") : click s = apply "dark" s := by
  simp only [click, h, flip_of_light]

lemma init_Agree (st : St) (hw : st.writeFails = false) (hb : (st.btn).isSome) :
    Agree (init st) := by
  unfold init
  exact apply_Agree _ st hw hb

lemma apply_normalize_eq (p : String) (st : St) : apply (normalize p) st = apply p st := by
  simp only [apply, normalize_idem]

/-- A fresh page with both elements present, nothing persisted, and a
working storage medium. -/
def sampleSt : St :=
  { link := some "", btn := some "", bodyTheme := none,
    storage := none, writeFails := false, readFails := false }

/-! ### The claims -/

/-- C1: after initialization (and any number of clicks), assuming
storage writes succeed and the toggle control is present, the persisted
value, the root state tag, and the preference implied by the toggle
control's action label all equal the same well-formed, most recently
applied preference. -/
theorem c1_three_representations_agree (st : St) (n : Nat)
    (hw : st.writeFails = false) (hb : (st.btn).isSome) :
    ∃ t, (t = "dark" ∨ t = "light") ∧ (run st n).storage = some t ∧
      (run st n).bodyTheme = some t ∧ ((run st n).btn).bind impliedApplied = some t :=
  (clicks_Agree n (init st) (init_Agree st hw hb)).2.2

/-- C1 witness: the invariant holds concretely on a fresh page after
`init` and two clicks. -/
theorem c1_witness :
    sampleSt.writeFails = false ∧ (sampleSt.btn).isSome ∧
      (∃ t, (t = "dark" ∨ t = "light") ∧ (run sampleSt 2).storage = some t ∧
        (run sampleSt 2).bodyTheme = some t ∧
        ((run sampleSt 2).btn).bind impliedApplied = some t) :=
  ⟨rfl, rfl, c1_three_representations_agree sampleSt 2 rfl rfl⟩

/-- C2: from applied `dark` (with working storage), one click yields
applied `light`, persisted `light`, and the "switch to dark" control
content; a second click restores the `dark`-active triple.  Moreover no
click, from any state, leaves the root state tag unchanged. -/
theorem c2_toggle_correctness (st : St) (hw : st.writeFails = false)
    (hd : st.bodyTheme = some "dark") :
    (click st).bodyTheme = some "light" ∧
    (click st).storage = some "light" ∧
    (click st).btn = st.btn.map (fun _ => moonDarkLabel) ∧
    (click (click st)).bodyTheme = some "dark" ∧
    (click (click st)).storage = some "dark" ∧
    (click (click st)).btn = st.btn.map (fun _ => sunLightLabel) ∧
    ∀ s : St, (click s).bodyTheme ≠ s.bodyTheme := by
  have h1 : click st = apply "light" st := click_dark hd
  have hb1 : (click st).bodyTheme = some "light" := by
    rw [h1, apply_bodyTheme, normalize_light]
  have h2 : click (click st) = apply "dark" (click st) := click_light hb1
  have hw1 : (click st).writeFails = false := by rw [h1, apply_writeFails]; exact hw
  refine ⟨hb1, ?_, ?_, ?_, ?_, ?_, click_bodyTheme_ne⟩
  · rw [h1, apply_storage, hw, normalize_light]
    simp
  · simp only [h1, apply_btn, normalize_light, labelFor_light]
  · rw [h2, apply_bodyTheme, normalize_dark]
  · rw [h2, apply_storage, hw1, normalize_dark]
    simp
  · rw [h2, apply_btn, h1, apply_btn]
    cases st.btn <;> rfl

/-- C2 witness: the toggle facts hold concretely from a fresh page whose
tag is `dark`. -/
theorem c2_witness :
    ({ sampleSt with bodyTheme := some "dark" } : St).writeFails = false ∧
    ({ sampleSt with bodyTheme := some "dark" } : St).bodyTheme = some "dark" ∧
    ((click { sampleSt with bodyTheme := some "dark" }).bodyTheme = some "light" ∧
     (click { sampleSt with bodyTheme := some "dark" }).storage = some "light" ∧
     (click { sampleSt with bodyTheme := some "dark" }).btn =
       ({ sampleSt with bodyTheme := some "dark" } : St).btn.map (fun _ => moonDarkLabel) ∧
     (click (click { sampleSt with bodyTheme := some "dark" })).bodyTheme = some "dark" ∧
     (click (click { sampleSt with bodyTheme := some "dark" })).storage = some "dark" ∧
     (click (click { sampleSt with bodyTheme := some "dark" })).btn =
       ({ sampleSt with bodyTheme := some "dark" } : St).btn.map (fun _ => sunLightLabel) ∧
     ∀ s : St, (click s).bodyTheme ≠ s.bodyTheme) :=
  ⟨rfl, rfl, c2_toggle_correctness { sampleSt with bodyTheme := some "dark" } rfl rfl⟩

/-- C3: `apply` normalizes its input to `light` exactly when the input
is the string `light` and to `dark` otherwise, and every side effect
(stylesheet reference, root tag, persisted value, control content) is
computed from the normalized value only. -/
theorem c3_defensive_normalization (p : String) (st : St) :
    (normalize p = "light" ↔ p = "light") ∧
    (normalize p = "dark" ∨ normalize p = "light") ∧
    apply p st = apply (normalize p) st ∧
    (apply p st).link = st.link.map (fun _ => THEMES (normalize p)) ∧
    (apply p st).bodyTheme = some (normalize p) ∧
    (apply p st).storage = (if st.writeFails then st.storage else some (normalize p)) ∧
    (apply p st).btn = st.btn.map (fun _ => labelFor (normalize p)) :=
  ⟨normalize_eq_light_iff p, normalize_cases p, (apply_normalize_eq p st).symm,
    apply_link p st, apply_bodyTheme p st, apply_storage p st, apply_btn p st⟩

lemma init_eq_apply (st : St) :
    init st = apply (if st.readFails then "dark" else orDefault st.storage "dark") st := rfl

/-- C4: a persisted `light` value round-trips — a fresh `init` (with a
readable storage) re-applies `light` to the tag, stylesheet, control
content and persisted value, with no click involved. -/
theorem c4_round_trip (st : St) (hs : st.storage = some "light") (hr : st.readFails = false) :
    (init st).bodyTheme = some "light" ∧
    (init st).storage = some "light" ∧
    (init st).link = st.link.map (fun _ => THEMES "light") ∧
    (init st).btn = st.btn.map (fun _ => labelFor "light") := by
  have h1 : init st = apply "light" st := by
    rw [init_eq_apply st, hr, hs, if_neg (by decide : ¬(false = true)),
      show orDefault (some "light") "dark" = "light" from by decide]
  refine ⟨?_, ?_, ?_, ?_⟩
  · rw [h1, apply_bodyTheme, normalize_light]
  · rw [h1, apply_storage, hs, normalize_light, ite_self]
  · simp only [h1, apply_link, normalize_light]
  · simp only [h1, apply_btn, normalize_light]

/-- C4 witness: the round-trip holds concretely for a fresh page whose
storage holds `light`. -/
theorem c4_witness :
    ({ sampleSt with storage := some "light" } : St).storage = some "light" ∧
    ({ sampleSt with storage := some "light" } : St).readFails = false ∧
    ((init { sampleSt with storage := some "light" }).bodyTheme = some "light" ∧
     (init { sampleSt with storage := some "light" }).storage = some "light" ∧
     (init { sampleSt with storage := some "light" }).link =
       ({ sampleSt with storage := some "light" } : St).link.map (fun _ => THEMES "light") ∧
     (init { sampleSt with storage := some "light" }).btn =
       ({ sampleSt with storage := some "light" } : St).btn.map (fun _ => labelFor "light")) :=
  ⟨rfl, rfl, c4_round_trip { sampleSt with storage := some "light" } rfl rfl⟩

/-- C5: with nothing persisted (or an unreadable storage) and working
writes, initialization applies `dark` everywhere: tag, persisted value,
stylesheet and control content end up `dark`-active. -/
theorem c5_default_fallback (st : St) (h : st.storage = none ∨ st.readFails = true)
    (hw : st.writeFails = false) :
    (init st).bodyTheme = some "dark" ∧
    (init st).storage = some "dark" ∧
    (init st).link = st.link.map (fun _ => THEMES "dark") ∧
    (init st).btn = st.btn.map (fun _ => labelFor "dark") := by
  have h1 : init st = apply "dark" st := by
    rcases h with hs | hr
    · rw [init_eq_apply st, hs, show orDefault none "dark" = "dark" from rfl, ite_self]
    · rw [init_eq_apply st, hr, if_pos rfl]
  refine ⟨?_, ?_, ?_, ?_⟩
  · rw [h1, apply_bodyTheme, normalize_dark]
  · rw [h1, apply_storage, hw, normalize_dark]
    simp
  · simp only [h1, apply_link, normalize_dark]
  · simp only [h1, apply_btn, normalize_dark]

/-- C5 witness: the default fallback holds concretely on a fresh page
with empty storage. -/
theorem c5_witness :
    (sampleSt.storage = none ∨ sampleSt.readFails = true) ∧
    sampleSt.writeFails = false ∧
    ((init sampleSt).bodyTheme = some "dark" ∧
     (init sampleSt).storage = some "dark" ∧
     (init sampleSt).link = sampleSt.link.map (fun _ => THEMES "dark") ∧
     (init sampleSt).btn = sampleSt.btn.map (fun _ => labelFor "dark")) :=
  ⟨Or.inl rfl, rfl, c5_default_fallback sampleSt (Or.inl rfl) rfl⟩

/-- C6: a persisted value that is neither `dark` nor `light` makes
initialization apply `dark`: the tag and the control content end up
`dark`-active. -/
theorem c6_invalid_value_fallback (st : St) (s : String) (hs : st.storage = some s)
    (hd : s ≠ "dark") (hl : s ≠ "light") (hr : st.readFails = false) :
    (init st).bodyTheme = some "dark" ∧
    (init st).btn = st.btn.map (fun _ => labelFor "dark") := by
  have h1 : init st = apply (orDefault (some s) "dark") st := by
    rw [init_eq_apply st, hr, hs, if_neg (by decide : ¬(false = true))]
  have hn : normalize (orDefault (some s) "dark") = "dark" := by
    by_cases he : s = ""
    · subst he; decide
    · rw [show orDefault (some s) "dark" = s from by simp [orDefault, he]]
      unfold normalize
      rw [if_neg hl]
  constructor
  · rw [h1, apply_bodyTheme, hn]
  · simp only [h1, apply_btn, hn]

/-- C6 witness: a persisted `banana` concretely initializes to `dark`. -/
theorem c6_witness :
    ({ sampleSt with storage := some "banana" } : St).storage = some "banana" ∧
    ("banana" : String) ≠ "dark" ∧ ("banana" : String) ≠ "light" ∧
    ({ sampleSt with storage := some "banana" } : St).readFails = false ∧
    ((init { sampleSt with storage := some "banana" }).bodyTheme = some "dark" ∧
     (init { sampleSt with storage := some "banana" }).btn =
       ({ sampleSt with storage := some "banana" } : St).btn.map (fun _ => labelFor "dark")) :=
  ⟨rfl, by decide, by decide, rfl,
    c6_invalid_value_fallback { sampleSt with storage := some "banana" } "banana" rfl
      (by decide) (by decide) rfl⟩

/-- The state used to refute C7 as stated: toggle present, empty
storage, always-failing writes. -/
def c7failSt : St :=
  { link := none, btn := some "", bodyTheme := none,
    storage := none, writeFails := true, readFails := false }

/-- C7 counterexample: the sequence initialize, click, initialize ends
with root tag `dark` under always-failing writes but `light` under
working storage (the second initialize re-reads the stale persisted
value), so the applied tag is not updated "exactly as it would be with
working storage" for every initialize/click sequence. -/
theorem c7_counterexample :
    (init (click (init c7failSt))).bodyTheme = some "dark" ∧
    (init (click (init { c7failSt with writeFails := false }))).bodyTheme = some "light" ∧
    (init (click (init c7failSt))).bodyTheme ≠
      (init (click (init { c7failSt with writeFails := false }))).bodyTheme := by
  refine ⟨by decide, by decide, by decide⟩

/-- C7 (amended): within a single page lifetime — one initialize
followed by any number of clicks — always-failing storage writes change
nothing about the applied root tag, the control content, or the
stylesheet reference compared to working storage; only the persisted
value is lost.  (`apply`, `init` and `click` are total functions here
because the failing write is caught, so no exception propagates.) -/
theorem c7_storage_failure_resilience (st : St) (n : Nat) :
    (run { st with writeFails := true } n).bodyTheme =
      (run { st with writeFails := false } n).bodyTheme ∧
    (run { st with writeFails := true } n).btn =
      (run { st with writeFails := false } n).btn ∧
    (run { st with writeFails := true } n).link =
      (run { st with writeFails := false } n).link := by
  have h0 : proj (init { st with writeFails := true }) =
      proj (init { st with writeFails := false }) := by
    unfold init
    exact proj_apply _ rfl
  have h := proj_clicks n h0
  exact ⟨congrArg (fun x => x.2.1) h, congrArg (fun x => x.2.2) h, congrArg Prod.fst h⟩

/-- C8: `apply` is total for every input and every combination of
present and absent elements: the root state tag is always written, the
persisted value is attempted (skipped only when the write fails), the
stylesheet reference and control content are rewritten exactly when
their element is present, and an absent element stays absent (its side
effect is skipped, not an error). -/
theorem c8_missing_element_resilience (p : String) (st : St) :
    (apply p st).bodyTheme = some (normalize p) ∧
    (apply p st).storage = (if st.writeFails then st.storage else some (normalize p)) ∧
    (apply p st).link = st.link.map (fun _ => THEMES (normalize p)) ∧
    (apply p st).btn = st.btn.map (fun _ => labelFor (normalize p)) ∧
    ((apply p st).link).isSome = (st.link).isSome ∧
    ((apply p st).btn).isSome = (st.btn).isSome :=
  ⟨apply_bodyTheme p st, apply_storage p st, apply_link p st, apply_btn p st,
    by rw [apply_link]; cases st.link <;> rfl, apply_btn_isSome p st⟩

/-- C9: `apply` is idempotent — applying the same preference twice in a
row leaves the whole state (tag, stylesheet reference, control content,
persisted value) identical to applying it once. -/
theorem c9_apply_idempotent (p : String) (st : St) :
    apply p (apply p st) = apply p st := by
  rcases st with ⟨l, b, bt, s, w, r⟩
  simp only [apply]
  cases w <;> simp [Option.map_map] <;>
    exact ⟨by cases l <;> rfl, by cases b <;> rfl⟩

/-- C10: after any `apply` — whatever the input and whether or not the
elements or a working storage exist — the root state tag holds exactly
`dark` or `light`; the click handler computes its flip from that
well-formed tag alone and ignores the persisted value. -/
theorem c10_root_tag_wellformed (p : String) (st : St) :
    ∃ t, (apply p st).bodyTheme = some t ∧ (t = "dark" ∨ t = "light") ∧
      orDefault ((apply p st).bodyTheme) "dark" = t ∧
      click (apply p st) = apply (if t = "dark" then "light" else "dark") (apply p st) ∧
      ∀ o : Option String,
        (click { apply p st with storage := o }).bodyTheme =
          (click (apply p st)).bodyTheme := by
  refine ⟨normalize p, apply_bodyTheme p st, normalize_cases p, ?_, ?_, fun o => rfl⟩
  · rw [apply_bodyTheme]
    rcases normalize_cases p with h | h <;> rw [h] <;> decide
  · rcases normalize_cases p with h | h
    · rw [h, if_pos rfl]
      exact click_dark (by rw [apply_bodyTheme, h])
    · rw [h, if_neg (by decide : ¬(("light" : String) = "dark"))]
      exact click_light (by rw [apply_bodyTheme, h])

end Dashboard
